import Mathlib

/-!
Shallow embedding of `turntouch/turntouch.py` (python-turntouch): the action
table, the notification decode path, the debounce handlers, the default
callback handler dispatch, and the device-name getter/setter.  Machine
integers are modelled as `Nat`; python sets of `Action` are modelled as lists
with python equality (`__eq__` compares the `data` field); time delays are
recorded symbolically as events carrying a rational number of seconds.
-/

namespace TT

/-- A button on the remote.  The source class carries a label and a machine
name; the only values ever constructed are the four class constants
`BUTTON_NORTH`, `BUTTON_EAST`, `BUTTON_WEST`, `BUTTON_SOUTH`, compared by
identity, so an enumeration is a faithful model. -/
inductive Button
  | north
  | east
  | west
  | south
deriving DecidableEq

/-- A type of button press.  The only values are the four class constants
`PRESS_NONE`, `PRESS_SINGLE`, `PRESS_DOUBLE`, `PRESS_HOLD`, compared by
identity. -/
inductive PressType
  | pressNone
  | single
  | double
  | hold
deriving DecidableEq

def PRESS_NONE : PressType := PressType.pressNone

def PRESS_SINGLE : PressType := PressType.single

def PRESS_DOUBLE : PressType := PressType.double

def PRESS_HOLD : PressType := PressType.hold

def BUTTON_NORTH : Button := Button.north

def BUTTON_EAST : Button := Button.east

def BUTTON_WEST : Button := Button.west

def BUTTON_SOUTH : Button := Button.south

/-- `Action.__init__`: byte representation (a 16-bit code), human label,
machine name, frozenset of buttons, press type. -/
structure Action where
  data : Nat
  label : String
  name : String
  buttons : Finset Button
  press_type : PressType
deriving DecidableEq

/-- `Action.__eq__` compares only the `data` fields. -/
def pyEqb (a b : Action) : Bool := a.data == b.data

/-- `Action.is_multi`: `len(self.buttons) > 1`. -/
def Action.is_multi (a : Action) : Bool := decide (1 < a.buttons.card)

/-- `Action.is_off`: `self.press_type == TurnTouch.PRESS_NONE`. -/
def Action.is_off (a : Action) : Bool := decide (a.press_type = PRESS_NONE)

/-- `Action.is_combo`: `self.press_type in (PRESS_DOUBLE, PRESS_HOLD)`. -/
def Action.is_combo (a : Action) : Bool :=
  decide (a.press_type = PRESS_DOUBLE) || decide (a.press_type = PRESS_HOLD)

/-- `TurnTouch.DEVICE_NAME_LENGTH = 32`. -/
def DEVICE_NAME_LENGTH : Nat := 32

/-- `TurnTouch.MAX_DELAY = 0.75` (seconds), the debounce window. -/
def MAX_DELAY : ℚ := 0.75

def action_off : Action := ⟨0xFF00, "Off", "action_off", ∅, PRESS_NONE⟩

def action_north : Action :=
  ⟨0xFE00, "North", "action_north", {BUTTON_NORTH}, PRESS_SINGLE⟩

def action_north_double_tap : Action :=
  ⟨0xEF00, "North double tap", "action_north_double_tap", {BUTTON_NORTH},
    PRESS_DOUBLE⟩

def action_north_hold : Action :=
  ⟨0xFEFF, "North hold", "action_north_hold", {BUTTON_NORTH}, PRESS_HOLD⟩

def action_east : Action :=
  ⟨0xFD00, "East", "action_east", {BUTTON_EAST}, PRESS_SINGLE⟩

def action_east_double_tap : Action :=
  ⟨0xDF00, "East double tap", "action_east_double_tap", {BUTTON_EAST},
    PRESS_DOUBLE⟩

def action_east_hold : Action :=
  ⟨0xFDFF, "East hold", "action_east_hold", {BUTTON_EAST}, PRESS_HOLD⟩

def action_west : Action :=
  ⟨0xFB00, "West", "action_west", {BUTTON_WEST}, PRESS_SINGLE⟩

def action_west_double_tap : Action :=
  ⟨0xBF00, "West double tap", "action_west_double_tap", {BUTTON_WEST},
    PRESS_DOUBLE⟩

def action_west_hold : Action :=
  ⟨0xFBFF, "West hold", "action_west_hold", {BUTTON_WEST}, PRESS_HOLD⟩

def action_south : Action :=
  ⟨0xF700, "South", "action_south", {BUTTON_SOUTH}, PRESS_SINGLE⟩

def action_south_double_tap : Action :=
  ⟨0x7F00, "South double tap", "action_south_double_tap", {BUTTON_SOUTH},
    PRESS_DOUBLE⟩

def action_south_hold : Action :=
  ⟨0xF7FF, "South hold", "action_south_hold", {BUTTON_SOUTH}, PRESS_HOLD⟩

def action_multi_north_east : Action :=
  ⟨0xFC00, "Multi North East", "action_multi_north_east",
    {BUTTON_NORTH, BUTTON_EAST}, PRESS_SINGLE⟩

def action_multi_north_west : Action :=
  ⟨0xFA00, "Multi North West", "action_multi_north_west",
    {BUTTON_NORTH, BUTTON_WEST}, PRESS_SINGLE⟩

def action_multi_north_south : Action :=
  ⟨0xF600, "Multi North South", "action_multi_north_south",
    {BUTTON_NORTH, BUTTON_SOUTH}, PRESS_SINGLE⟩

def action_multi_east_west : Action :=
  ⟨0xF900, "Multi East West", "action_multi_east_west",
    {BUTTON_EAST, BUTTON_WEST}, PRESS_SINGLE⟩

def action_multi_east_south : Action :=
  ⟨0xF500, "Multi East South", "action_multi_east_south",
    {BUTTON_EAST, BUTTON_SOUTH}, PRESS_SINGLE⟩

def action_multi_west_south : Action :=
  ⟨0xF300, "Multi West South", "action_multi_west_south",
    {BUTTON_WEST, BUTTON_SOUTH}, PRESS_SINGLE⟩

def action_multi_north_east_west : Action :=
  ⟨0xF800, "Multi North East West", "action_multi_north_east_west",
    {BUTTON_NORTH, BUTTON_EAST, BUTTON_WEST}, PRESS_SINGLE⟩

def action_multi_north_east_south : Action :=
  ⟨0xF400, "Multi North East South", "action_multi_north_east_south",
    {BUTTON_NORTH, BUTTON_EAST, BUTTON_SOUTH}, PRESS_SINGLE⟩

def action_multi_north_west_south : Action :=
  ⟨0xF200, "Multi North West South", "action_multi_north_west_south",
    {BUTTON_NORTH, BUTTON_WEST, BUTTON_SOUTH}, PRESS_SINGLE⟩

def action_multi_east_west_south : Action :=
  ⟨0xF100, "Multi East West South", "action_multi_east_west_south",
    {BUTTON_EAST, BUTTON_WEST, BUTTON_SOUTH}, PRESS_SINGLE⟩

def action_multi_north_east_west_south : Action :=
  ⟨0xF000, "Multi North East West South",
    "action_multi_north_east_west_south",
    {BUTTON_NORTH, BUTTON_EAST, BUTTON_WEST, BUTTON_SOUTH}, PRESS_SINGLE⟩

/-- `TurnTouch.ACTIONS`, the dict literal of turntouch.py lines 172-235, as
an association list in source order. -/
def ACTIONS_table : List (Nat × Action) :=
  [(0xFF00, action_off),
   (0xFE00, action_north),
   (0xEF00, action_north_double_tap),
   (0xFEFF, action_north_hold),
   (0xFD00, action_east),
   (0xDF00, action_east_double_tap),
   (0xFDFF, action_east_hold),
   (0xFB00, action_west),
   (0xBF00, action_west_double_tap),
   (0xFBFF, action_west_hold),
   (0xF700, action_south),
   (0x7F00, action_south_double_tap),
   (0xF7FF, action_south_hold),
   (0xFC00, action_multi_north_east),
   (0xFA00, action_multi_north_west),
   (0xF600, action_multi_north_south),
   (0xF900, action_multi_east_west),
   (0xF500, action_multi_east_south),
   (0xF300, action_multi_west_south),
   (0xF800, action_multi_north_east_west),
   (0xF400, action_multi_north_east_south),
   (0xF200, action_multi_north_west_south),
   (0xF100, action_multi_east_west_south),
   (0xF000, action_multi_north_east_west_south)]

/-- Lookup in the `ACTIONS` dict by key. -/
def ACTIONS (code : Nat) : Option Action := ACTIONS_table.lookup code

/-- The python exception classes that matter for the decode and listen
paths.  `keyError` and `indexError` are distinct builtin classes (both
subclass LookupError, neither subclasses the other). -/
inductive PyExc
  | keyError
  | indexError
  | btleException
  | turnTouchException
  | typeError
deriving DecidableEq

/-- `int.from_bytes(data, byteorder=big)`. -/
def intFromBytesBE (data : List Nat) : Nat :=
  data.foldl (fun acc b => acc * 256 + b) 0

/-- The dict subscript `self.turn_touch.ACTIONS[type_int]` in
`handleNotification`: returns the entry, or raises `KeyError` when the key
is absent. -/
def actionsSubscript (code : Nat) : Except PyExc Action :=
  match ACTIONS code with
  | some a => Except.ok a
  | none => Except.error PyExc.keyError

/-- The `try/except IndexError` around the subscript in
`handleNotification` (lines 474-478): only an `IndexError` is converted to
`TurnTouchException`; any other exception propagates unchanged. -/
def lookupAction (code : Nat) : Except PyExc Action :=
  match actionsSubscript code with
  | Except.error PyExc.indexError => Except.error PyExc.turnTouchException
  | r => r

/-- The `except btle.BTLEException` clause of `TurnTouch.listen`
(lines 363-364): the only exception class the intake loop catches. -/
def listenLoopCatches (e : PyExc) : Bool := e == PyExc.btleException

/-- Observable steps of a debounce handler run: callback invocation,
`time.sleep` of a number of seconds, and the mutations of the shared
`_combo_action` set.  `raised` marks the point where an exception from the
callback aborts the handler. -/
inductive Event
  | sleep (seconds : ℚ)
  | callback (a : Action)
  | setAdd (a : Action)
  | setRemove (a : Action)
  | raised
deriving DecidableEq

/-- Python `action in self._combo_action`: membership by `Action.__eq__`. -/
def memIn (s : List Action) (a : Action) : Bool := s.any (fun b => pyEqb a b)

/-- The scan `for combo_action in self._combo_action: if
combo_action.buttons.issuperset(action.buttons)` used by the multi and
single handlers. -/
def supersetIn (s : List Action) (a : Action) : Bool :=
  s.any (fun c => decide (a.buttons ⊆ c.buttons))

/-- Python `set.add`: no-op when an equal element is already present. -/
def pySetAdd (s : List Action) (a : Action) : List Action :=
  if memIn s a then s else a :: s

/-- Python `set.remove`: delete the element equal to the argument. -/
def pySetRemove (s : List Action) (a : Action) : List Action :=
  s.filter (fun b => !(pyEqb a b))

/-- Effect of one handler event on the `_combo_action` set. -/
def applyEvent (s : List Action) : Event → List Action
  | Event.setAdd a => pySetAdd s a
  | Event.setRemove a => pySetRemove s a
  | _ => s

/-- The `_combo_action` set after a handler trace runs from state `s`. -/
def runEvents (s : List Action) (es : List Event) : List Action :=
  es.foldl applyEvent s

/-- `NotificationDelegate._handle_combo` (lines 412-419): add to the set,
invoke the callback, sleep `MAX_DELAY`, remove from the set.  When the
callback raises (`cbOk = false`) the handler aborts there: no sleep, no
removal (there is no try/finally). -/
def handle_combo (a : Action) (cbOk : Bool) : List Event :=
  if cbOk then
    [Event.setAdd a, Event.callback a, Event.sleep MAX_DELAY,
     Event.setRemove a]
  else
    [Event.setAdd a, Event.callback a, Event.raised]

/-- `NotificationDelegate._handle_multi` (lines 421-435): if some member of
the set has a superset of the buttons, return (drop).  Otherwise add,
invoke the callback, sleep `MAX_DELAY`, remove.  A raising callback aborts
before the removal. -/
def handle_multi (s : List Action) (a : Action) (cbOk : Bool) : List Event :=
  if supersetIn s a then []
  else if cbOk then
    [Event.setAdd a, Event.callback a, Event.sleep MAX_DELAY,
     Event.setRemove a]
  else
    [Event.setAdd a, Event.callback a, Event.raised]

/-- `NotificationDelegate._handle_off` (lines 437-449): if the action is
already in the set, return (drop).  Otherwise add, sleep `MAX_DELAY`,
invoke the callback, remove.  A raising callback aborts before the
removal. -/
def handle_off (s : List Action) (a : Action) (cbOk : Bool) : List Event :=
  if memIn s a then []
  else if cbOk then
    [Event.setAdd a, Event.sleep MAX_DELAY, Event.callback a,
     Event.setRemove a]
  else
    [Event.setAdd a, Event.sleep MAX_DELAY, Event.callback a, Event.raised]

/-- `NotificationDelegate._handle_single` (lines 451-462): sleep
`MAX_DELAY` first, then scan the set for a superset of the buttons; if one
is found, return without invoking the callback, else invoke it.  `s` is
the contents of the set at the time of the scan. -/
def handle_single (s : List Action) (a : Action) (cbOk : Bool) : List Event :=
  if supersetIn s a then [Event.sleep MAX_DELAY]
  else if cbOk then [Event.sleep MAX_DELAY, Event.callback a]
  else [Event.sleep MAX_DELAY, Event.callback a, Event.raised]

/-- Where a branch of `handleNotification` executes. -/
inductive ExecTarget
  | callerThread
  | workerPool
deriving DecidableEq

/-- Thread placement of the debounce dispatch in
`NotificationDelegate.handleNotification` (lines 479-498): with debouncing
enabled the combo branch is a plain method call on the notification
thread, while the multi, off and single branches are submitted to
`self.turn_touch.executor` (a ThreadPoolExecutor of capacity 5); with
debouncing disabled `handle_action` runs on the notification thread. -/
def dispatchTarget (debounce : Bool) (a : Action) : ExecTarget :=
  if debounce then
    if a.is_combo then ExecTarget.callerThread
    else ExecTarget.workerPool
  else ExecTarget.callerThread

/-- The debounced branch selection of `handleNotification`
(lines 480-496), returning the trace of the selected handler. -/
def debounceBranch (s : List Action) (a : Action) (cbOk : Bool) :
    List Event :=
  if a.is_combo then handle_combo a cbOk
  else if a.is_multi then handle_multi s a cbOk
  else if a.is_off then handle_off s a cbOk
  else handle_single s a cbOk

/-- End-to-end processing of one notification payload value
(`handleNotification`, callbacks assumed not to raise): decode the code,
then either run the debounce branch or call `handle_action` directly. -/
def processNotification (debounce : Bool) (s : List Action) (code : Nat) :
    Except PyExc (List Event) :=
  match lookupAction code with
  | Except.error e => Except.error e
  | Except.ok a =>
      Except.ok (if debounce then debounceBranch s a true
                 else [Event.callback a])

/-- Number of callback invocations in a handler trace. -/
def countCallbacks (es : List Event) : Nat :=
  es.countP (fun e => match e with
    | Event.callback _ => true
    | _ => false)

/-- The machine names of the action-specific hook methods defined by
`DefaultActionHandler` (lines 105-151), each declared as
`def hook(self): pass` — one required positional parameter, no
defaults. -/
def defaultHandlerHooks : List String :=
  ["action_off",
   "action_north", "action_north_double_tap", "action_north_hold",
   "action_east", "action_east_double_tap", "action_east_hold",
   "action_west", "action_west_double_tap", "action_west_hold",
   "action_south", "action_south_double_tap", "action_south_hold",
   "action_multi_north_east", "action_multi_north_west",
   "action_multi_north_south", "action_multi_east_west",
   "action_multi_east_south", "action_multi_west_south",
   "action_multi_north_east_west", "action_multi_north_east_south",
   "action_multi_north_west_south", "action_multi_east_west_south",
   "action_multi_north_east_west_south"]

/-- Parameter counts (required, defaulted) of each `DefaultActionHandler`
method: `action_any(self, action=None)` has one required and one defaulted
parameter; every action-specific hook has only `self`. -/
def hookParams (hook : String) : Option (Nat × Nat) :=
  if hook = "action_any" then some (1, 1)
  else if defaultHandlerHooks.contains hook then some (1, 0)
  else none

/-- Python call arity check: a function with `required` mandatory
positional parameters and `optional` defaulted ones accepts `args`
positional arguments iff `required ≤ args ≤ required + optional`. -/
def pyCallOk (required optional args : Nat) : Bool :=
  decide (required ≤ args) && decide (args ≤ required + optional)

/-- Attribute access on an instance yields a bound method (one implicit
`self` argument is passed); access on the class yields the plain function
(no implicit argument). -/
def methodArgs (onInstance : Bool) (explicit : Nat) : Nat :=
  explicit + (if onInstance then 1 else 0)

/-- Whether one hook call `getattr(handler, hook)(explicit args)`
succeeds. -/
def hookCallOk (onInstance : Bool) (hook : String) (explicit : Nat) : Bool :=
  match hookParams hook with
  | some (required, optional) =>
      pyCallOk required optional (methodArgs onInstance explicit)
  | none => false

/-- `NotificationDelegate.handle_action` (lines 464-469): first
`handler.action_any(action)` with one explicit argument, then
`getattr(handler, action.name)()` with none.  Returns whether both calls
succeed without a TypeError. -/
def handle_action_ok (onInstance : Bool) (a : Action) : Bool :=
  hookCallOk onInstance "action_any" 1 && hookCallOk onInstance a.name 0

/-- `TurnTouch.__init__` line 262: `self.handler = handler or
DefaultActionHandler`.  When no handler is supplied the stored handler is
the class object itself, not an instance. -/
def handlerOrDefaultIsInstance : Bool := false

/-- Python `str.encode(utf-8)` for one code point (standard UTF-8
byte layout by code-point range). -/
def utf8EncodeChar (c : Nat) : List Nat :=
  if c < 0x80 then [c]
  else if c < 0x800 then [0xC0 + c / 64, 0x80 + c % 64]
  else if c < 0x10000 then
    [0xE0 + c / 4096, 0x80 + c / 64 % 64, 0x80 + c % 64]
  else
    [0xF0 + c / 262144, 0x80 + c / 4096 % 64, 0x80 + c / 64 % 64,
     0x80 + c % 64]

/-- Python `str.encode(utf-8)`: a python string is modelled as its list of
code points, its encoding as the list of bytes. -/
def utf8Encode (s : List Nat) : List Nat := (s.map utf8EncodeChar).flatten

/-- Python `bytes.ljust(width, fill)`: pad on the right up to `width`;
a longer input is returned unchanged. -/
def ljust (bs : List Nat) (width fill : Nat) : List Nat :=
  bs ++ List.replicate (width - bs.length) fill

/-- The `name` setter (lines 276-283): raise `TurnTouchException` when
`len(name)` (code points) exceeds `DEVICE_NAME_LENGTH`, else write
`name.encode(utf-8).ljust(DEVICE_NAME_LENGTH, NUL)` to the device.  The
result is the byte value written, or the exception (nothing written). -/
def name_setter (nm : List Nat) : Except PyExc (List Nat) :=
  if DEVICE_NAME_LENGTH < nm.length then
    Except.error PyExc.turnTouchException
  else
    Except.ok (ljust (utf8Encode nm) DEVICE_NAME_LENGTH 0)

/-- Length in bytes of the UTF-8 sequence introduced by lead byte `b`. -/
def utf8CharLen (b : Nat) : Nat :=
  if b < 0x80 then 1 else if b < 0xE0 then 2 else if b < 0xF0 then 3 else 4

/-- Code point assembled from lead byte `b` and the continuation bytes at
the front of `bs`. -/
def utf8DecodeCharVal (b : Nat) (bs : List Nat) : Nat :=
  if b < 0x80 then b
  else if b < 0xE0 then (b - 0xC0) * 64 + (bs.getD 0 0 - 0x80)
  else if b < 0xF0 then
    (b - 0xE0) * 4096 + (bs.getD 0 0 - 0x80) * 64 + (bs.getD 1 0 - 0x80)
  else
    (b - 0xF0) * 262144 + (bs.getD 0 0 - 0x80) * 4096
      + (bs.getD 1 0 - 0x80) * 64 + (bs.getD 2 0 - 0x80)

/-- Python `bytes.decode(utf-8)` on well-formed input (the shapes produced
by `utf8Encode`): assemble one code point from the lead byte, skip its
continuation bytes, recurse. -/
def utf8Decode : List Nat → List Nat
  | [] => []
  | b :: bs =>
      utf8DecodeCharVal b bs :: utf8Decode (bs.drop (utf8CharLen b - 1))
termination_by l => l.length
decreasing_by
  simp only [List.length_drop, List.length_cons]
  omega

/-- Python `str.rstrip(NUL)`: remove every trailing NUL code point. -/
def rstripNul (s : List Nat) : List Nat :=
  (s.reverse.dropWhile (fun c => c == 0)).reverse

/-- The `name` getter (lines 270-274): read the characteristic bytes,
UTF-8 decode, strip trailing NULs. -/
def name_getter (v : List Nat) : List Nat := rstripNul (utf8Decode v)

/-- The rows of the spec table in section 6, transcribed from the spec for
the refinement comparison of claim C2: code, button set, press type. -/
def specTableRows : List (Nat × Finset Button × PressType) :=
  [(0xFF00, ∅, PRESS_NONE),
   (0xFE00, {BUTTON_NORTH}, PRESS_SINGLE),
   (0xEF00, {BUTTON_NORTH}, PRESS_DOUBLE),
   (0xFEFF, {BUTTON_NORTH}, PRESS_HOLD),
   (0xFD00, {BUTTON_EAST}, PRESS_SINGLE),
   (0xDF00, {BUTTON_EAST}, PRESS_DOUBLE),
   (0xFDFF, {BUTTON_EAST}, PRESS_HOLD),
   (0xFB00, {BUTTON_WEST}, PRESS_SINGLE),
   (0xBF00, {BUTTON_WEST}, PRESS_DOUBLE),
   (0xFBFF, {BUTTON_WEST}, PRESS_HOLD),
   (0xF700, {BUTTON_SOUTH}, PRESS_SINGLE),
   (0x7F00, {BUTTON_SOUTH}, PRESS_DOUBLE),
   (0xF7FF, {BUTTON_SOUTH}, PRESS_HOLD),
   (0xFC00, {BUTTON_NORTH, BUTTON_EAST}, PRESS_SINGLE),
   (0xFA00, {BUTTON_NORTH, BUTTON_WEST}, PRESS_SINGLE),
   (0xF600, {BUTTON_NORTH, BUTTON_SOUTH}, PRESS_SINGLE),
   (0xF900, {BUTTON_EAST, BUTTON_WEST}, PRESS_SINGLE),
   (0xF500, {BUTTON_EAST, BUTTON_SOUTH}, PRESS_SINGLE),
   (0xF300, {BUTTON_WEST, BUTTON_SOUTH}, PRESS_SINGLE),
   (0xF800, {BUTTON_NORTH, BUTTON_EAST, BUTTON_WEST}, PRESS_SINGLE),
   (0xF400, {BUTTON_NORTH, BUTTON_EAST, BUTTON_SOUTH}, PRESS_SINGLE),
   (0xF200, {BUTTON_NORTH, BUTTON_WEST, BUTTON_SOUTH}, PRESS_SINGLE),
   (0xF100, {BUTTON_EAST, BUTTON_WEST, BUTTON_SOUTH}, PRESS_SINGLE),
   (0xF000, {BUTTON_NORTH, BUTTON_EAST, BUTTON_WEST, BUTTON_SOUTH},
     PRESS_SINGLE)]

/-- A 17-character name whose UTF-8 encoding is 51 bytes: seventeen copies
of the euro sign, code point 0x20AC (three bytes each). -/
def euroName : List Nat := List.replicate 17 0x20AC

/- ------------------------------------------------------------------ -/
/- Helper lemmas -/

theorem lookup_eq_none_of_not_mem_keys (l : List (Nat × Action)) (n : Nat)
    (h : n ∉ l.map Prod.fst) : l.lookup n = none := by
  induction l with
  | nil => rfl
  | cons p t ih =>
    obtain ⟨k, v⟩ := p
    simp only [List.map_cons, List.mem_cons, not_or] at h
    have hk : (n == k) = false := by simpa using h.1
    simp [List.lookup, hk, ih h.2]

theorem pySetRemove_not_mem (s : List Action) (a : Action)
    (h : memIn s a = false) : pySetRemove s a = s := by
  apply List.filter_eq_self.mpr
  intro b hb
  have hall : ∀ x ∈ s, ¬ pyEqb a x = true := by
    simpa [memIn, List.any_eq_false] using h
  simpa using hall b hb

theorem pySetAdd_not_mem (s : List Action) (a : Action)
    (h : memIn s a = false) : pySetAdd s a = a :: s := by
  simp [pySetAdd, h]

theorem pySetRemove_add_not_mem (s : List Action) (a : Action)
    (h : memIn s a = false) : pySetRemove (pySetAdd s a) a = s := by
  rw [pySetAdd_not_mem s a h]
  have hself : (fun b => !(pyEqb a b)) a = false := by simp [pyEqb]
  simp only [pySetRemove, List.filter_cons, hself]
  exact pySetRemove_not_mem s a h

theorem memIn_pySetAdd_self (s : List Action) (a : Action) :
    memIn (pySetAdd s a) a = true := by
  by_cases h : memIn s a
  · simp [pySetAdd, h]
  · simp only [Bool.not_eq_true] at h
    rw [pySetAdd_not_mem s a h]
    simp [memIn, pyEqb]

theorem utf8EncodeChar_length_pos (c : Nat) :
    1 ≤ (utf8EncodeChar c).length := by
  unfold utf8EncodeChar
  split_ifs <;> simp

theorem length_le_utf8Encode_length (s : List Nat) :
    s.length ≤ (utf8Encode s).length := by
  induction s with
  | nil => simp [utf8Encode]
  | cons c t ih =>
    have hc := utf8EncodeChar_length_pos c
    simp only [utf8Encode, List.map_cons, List.flatten_cons,
      List.length_append, List.length_cons]
    simp only [utf8Encode] at ih
    omega

theorem utf8Decode_encodeChar_append (c : Nat) (h : c < 0x110000)
    (rest : List Nat) :
    utf8Decode (utf8EncodeChar c ++ rest) = c :: utf8Decode rest := by
  by_cases h1 : c < 0x80
  · rw [utf8EncodeChar, if_pos h1]
    show utf8Decode (c :: rest) = c :: utf8Decode rest
    rw [utf8Decode]
    have hlen : utf8CharLen c = 1 := by rw [utf8CharLen, if_pos h1]
    have hval : utf8DecodeCharVal c rest = c := by
      rw [utf8DecodeCharVal, if_pos h1]
    rw [hlen, hval]
    rfl
  · by_cases h2 : c < 0x800
    · rw [utf8EncodeChar, if_neg h1, if_pos h2]
      show utf8Decode ((0xC0 + c / 64) :: (0x80 + c % 64) :: rest)
        = c :: utf8Decode rest
      rw [utf8Decode]
      have hlen : utf8CharLen (0xC0 + c / 64) = 2 := by
        rw [utf8CharLen, if_neg (by omega), if_pos (by omega)]
      have hval : utf8DecodeCharVal (0xC0 + c / 64)
          ((0x80 + c % 64) :: rest) = c := by
        rw [utf8DecodeCharVal, if_neg (by omega), if_pos (by omega)]
        simp only [List.getD_cons_zero]
        omega
      rw [hlen, hval]
      rfl
    · by_cases h3 : c < 0x10000
      · rw [utf8EncodeChar, if_neg h1, if_neg h2, if_pos h3]
        show utf8Decode
            ((0xE0 + c / 4096) :: (0x80 + c / 64 % 64) :: (0x80 + c % 64)
              :: rest) = c :: utf8Decode rest
        rw [utf8Decode]
        have hlen : utf8CharLen (0xE0 + c / 4096) = 3 := by
          rw [utf8CharLen, if_neg (by omega), if_neg (by omega),
            if_pos (by omega)]
        have hval : utf8DecodeCharVal (0xE0 + c / 4096)
            ((0x80 + c / 64 % 64) :: (0x80 + c % 64) :: rest) = c := by
          rw [utf8DecodeCharVal, if_neg (by omega), if_neg (by omega),
            if_pos (by omega)]
          simp only [List.getD_cons_zero, List.getD_cons_succ]
          omega
        rw [hlen, hval]
        rfl
      · rw [utf8EncodeChar, if_neg h1, if_neg h2, if_neg h3]
        show utf8Decode
            ((0xF0 + c / 262144) :: (0x80 + c / 4096 % 64)
              :: (0x80 + c / 64 % 64) :: (0x80 + c % 64) :: rest)
          = c :: utf8Decode rest
        rw [utf8Decode]
        have hlen : utf8CharLen (0xF0 + c / 262144) = 4 := by
          rw [utf8CharLen, if_neg (by omega), if_neg (by omega),
            if_neg (by omega)]
        have hval : utf8DecodeCharVal (0xF0 + c / 262144)
            ((0x80 + c / 4096 % 64) :: (0x80 + c / 64 % 64)
              :: (0x80 + c % 64) :: rest) = c := by
          rw [utf8DecodeCharVal, if_neg (by omega), if_neg (by omega),
            if_neg (by omega)]
          simp only [List.getD_cons_zero, List.getD_cons_succ]
          omega
        rw [hlen, hval]
        rfl

theorem utf8Decode_encode_append (s : List Nat)
    (hs : ∀ c ∈ s, c < 0x110000) (t : List Nat) :
    utf8Decode (utf8Encode s ++ t) = s ++ utf8Decode t := by
  induction s with
  | nil => simp [utf8Encode]
  | cons c u ih =>
    have hc : c < 0x110000 := hs c (List.mem_cons_self c u)
    have hu : ∀ x ∈ u, x < 0x110000 := fun x hx =>
      hs x (List.mem_cons_of_mem c hx)
    simp only [utf8Encode, List.map_cons, List.flatten_cons,
      List.append_assoc]
    rw [utf8Decode_encodeChar_append c hc]
    simp only [utf8Encode] at ih
    rw [ih hu, List.cons_append]

theorem utf8Decode_replicate_zero (k : Nat) :
    utf8Decode (List.replicate k 0) = List.replicate k 0 := by
  induction k with
  | zero =>
    show utf8Decode [] = []
    rw [utf8Decode]
  | succ n ih =>
    rw [List.replicate_succ, utf8Decode]
    have hlen : utf8CharLen 0 = 1 := by rw [utf8CharLen, if_pos (by omega)]
    have hval : utf8DecodeCharVal 0 (List.replicate n 0) = 0 := by
      rw [utf8DecodeCharVal, if_pos (by omega)]
    rw [hlen, hval]
    simpa using ih

theorem dropWhile_zero_replicate (k : Nat) (t : List Nat) :
    List.dropWhile (fun c => c == 0) (List.replicate k 0 ++ t)
      = List.dropWhile (fun c => c == 0) t := by
  induction k with
  | zero => rfl
  | succ n ih =>
    rw [List.replicate_succ, List.cons_append, List.dropWhile_cons]
    simp only [beq_self_eq_true, if_true]
    exact ih

theorem dropWhile_zero_eq_self (l : List Nat) (h : ∀ x ∈ l, x ≠ 0) :
    List.dropWhile (fun c => c == 0) l = l := by
  cases l with
  | nil => rfl
  | cons x t =>
    rw [List.dropWhile_cons]
    have hx : (x == 0) = false := by
      simpa using h x (List.mem_cons_self x t)
    simp [hx]

theorem rstripNul_append_replicate (s : List Nat) (h0 : (0 : Nat) ∉ s)
    (k : Nat) : rstripNul (s ++ List.replicate k 0) = s := by
  unfold rstripNul
  rw [List.reverse_append, List.reverse_replicate,
    dropWhile_zero_replicate, dropWhile_zero_eq_self]
  · exact List.reverse_reverse s
  · intro x hx hx0
    exact h0 (by simpa [hx0] using (List.mem_reverse.mp hx))

/- ------------------------------------------------------------------ -/
/- Claim theorems -/

/-- C1 counterexample: at the concrete unknown payload value 0, the table
lookup in handleNotification raises KeyError, not TurnTouchException (the
except clause names IndexError, which a dict lookup never raises), and the
intake loop of listen catches only BTLEException, so the failure is not
dropped and intake does not continue. -/
theorem C1_counterexample :
    lookupAction 0 = Except.error PyExc.keyError ∧
    lookupAction 0 ≠ Except.error PyExc.turnTouchException ∧
    listenLoopCatches PyExc.keyError = false := by
  refine ⟨rfl, ?_, rfl⟩
  rw [show lookupAction 0 = Except.error PyExc.keyError from rfl]
  simp

/-- C1 (amended): for every payload value with no entry in the action
table, no callback is invoked and processing raises an exception, but the
exception is the KeyError of the dict lookup (the except IndexError clause
never matches, so the TurnTouchException path is unreachable), and the
intake loop catches only BTLEException, so the failure propagates and
intake does not continue. -/
theorem C1_unknown_code (code : Nat) (h : ACTIONS code = none) :
    lookupAction code = Except.error PyExc.keyError ∧
    lookupAction code ≠ Except.error PyExc.turnTouchException ∧
    (∀ debounce s,
      processNotification debounce s code = Except.error PyExc.keyError) ∧
    listenLoopCatches PyExc.keyError = false := by
  have hl : lookupAction code = Except.error PyExc.keyError := by
    rw [lookupAction, actionsSubscript, h]
  refine ⟨hl, by rw [hl]; simp, ?_, rfl⟩
  intro debounce s
  rw [processNotification, hl]

/-- C1 witness: the amended claim evaluated at payload value 0. -/
theorem C1_witness :
    lookupAction 0 = Except.error PyExc.keyError ∧
    processNotification true [] 0 = Except.error PyExc.keyError :=
  ⟨(C1_unknown_code 0 rfl).1, (C1_unknown_code 0 rfl).2.2.1 true []⟩

/-- C2 counterexample: the code list given by the claim (and by the spec
table) has 24 entries, not 21 as the claim asserts. -/
theorem C2_counterexample :
    specTableRows.length = 24 ∧ specTableRows.length ≠ 21 := by
  decide

/-- C2 (amended): for each of the 24 codes listed in the spec table (the
claim miscounts them as 21), decoding returns an Action whose code, button
set, and press type exactly match the table row, and no other value has a
table entry. -/
theorem C2_decode_matches_table :
    (∀ r ∈ specTableRows,
        (ACTIONS r.1).map (fun a => (a.data, a.buttons, a.press_type))
          = some r) ∧
    specTableRows.length = 24 ∧
    (∀ n : Nat, n ∉ specTableRows.map Prod.fst → ACTIONS n = none) := by
  refine ⟨by decide, by decide, ?_⟩
  intro n hn
  apply lookup_eq_none_of_not_mem_keys
  have hkeys : ACTIONS_table.map Prod.fst = specTableRows.map Prod.fst := by
    decide
  rw [hkeys]
  exact hn

/-- C2 witness: the decode of row 0xFF00 and the absence of code 0xAB. -/
theorem C2_witness :
    (ACTIONS 0xFF00).map (fun a => (a.data, a.buttons, a.press_type))
      = some (0xFF00, (∅ : Finset Button), PRESS_NONE) ∧
    ACTIONS 0xAB = none :=
  ⟨C2_decode_matches_table.1 (0xFF00, ∅, PRESS_NONE) (by decide),
   C2_decode_matches_table.2.2 0xAB (by decide)⟩

/-- C3 counterexample: with debouncing enabled, the combo action North
hold is dispatched on the caller (notification-intake) thread, not to the
worker pool, contradicting the claim that all four branches run on worker
tasks. -/
theorem C3_counterexample :
    action_north_hold.is_combo = true ∧
    dispatchTarget true action_north_hold = ExecTarget.callerThread ∧
    ExecTarget.callerThread ≠ ExecTarget.workerPool := by
  decide

/-- C3 (amended): with debouncing enabled, the multi, off and single
branches are submitted to the worker pool, but the combo branch is run as
a direct call on the caller thread, where its handler sleeps MAX_DELAY, so
a combo gesture does block intake of the next raw event. -/
theorem C3_dispatch (a : Action) :
    (a.is_combo = false → dispatchTarget true a = ExecTarget.workerPool) ∧
    (a.is_combo = true →
        dispatchTarget true a = ExecTarget.callerThread ∧
        Event.sleep MAX_DELAY ∈ handle_combo a true) := by
  constructor
  · intro h
    simp [dispatchTarget, h]
  · intro h
    refine ⟨by simp [dispatchTarget, h], by simp [handle_combo]⟩

/-- C3 witness: the amended claim evaluated at the single action North and
the combo action North hold. -/
theorem C3_witness :
    dispatchTarget true action_north = ExecTarget.workerPool ∧
    dispatchTarget true action_north_hold = ExecTarget.callerThread :=
  ⟨(C3_dispatch action_north).1 (by decide),
   ((C3_dispatch action_north_hold).2 (by decide)).1⟩

/-- C4: for a single-button, non-combo, non-off action the handler first
sleeps MAX_DELAY = 0.75 seconds, then suppresses the callback exactly when
some Action in the set (as observed after the wait) has a button set that
is a superset of the actions buttons, and the branch never mutates the
set. -/
theorem C4_single_branch (s : List Action) (a : Action)
    (_h1 : a.is_combo = false) (_h2 : a.is_multi = false)
    (_h3 : a.is_off = false) :
    MAX_DELAY = 3 / 4 ∧
    (supersetIn s a = true →
        handle_single s a true = [Event.sleep MAX_DELAY]) ∧
    (supersetIn s a = false →
        handle_single s a true
          = [Event.sleep MAX_DELAY, Event.callback a]) ∧
    runEvents s (handle_single s a true) = s := by
  refine ⟨by norm_num [MAX_DELAY], fun h => by simp [handle_single, h],
    fun h => by simp [handle_single, h], ?_⟩
  by_cases h : supersetIn s a
  · simp only [handle_single, h, if_true]
    rfl
  · simp only [Bool.not_eq_true] at h
    simp only [handle_single, h, Bool.false_eq_true, if_false, if_true]
    rfl

/-- C4 witness: feeding only the North single with an empty active set
yields exactly the wait followed by one North callback. -/
theorem C4_witness :
    handle_single [] action_north true
      = [Event.sleep MAX_DELAY, Event.callback action_north] :=
  (C4_single_branch [] action_north (by decide) (by decide)
    (by decide)).2.2.1 (by decide)

/-- C5: for a multi-button, non-combo action: when some member of the set
has a superset of its buttons the action is dropped with no callback and
no set mutation; otherwise it is added, its callback fires immediately
(before the MAX_DELAY sleep), and it is removed after the sleep; feeding
the same multi action again while it is still in the set yields no second
callback. -/
theorem C5_multi_branch (s : List Action) (a : Action)
    (_h1 : a.is_multi = true) (_h2 : a.is_combo = false) :
    (supersetIn s a = true →
        handle_multi s a true = [] ∧
        runEvents s (handle_multi s a true) = s) ∧
    (supersetIn s a = false →
        handle_multi s a true
          = [Event.setAdd a, Event.callback a, Event.sleep MAX_DELAY,
             Event.setRemove a]) ∧
    handle_multi (pySetAdd [] a) a true = [] ∧
    countCallbacks
      (handle_multi [] a true ++ handle_multi (pySetAdd [] a) a true)
      = 1 := by
  have hsup : supersetIn (pySetAdd [] a) a = true := by
    have : pySetAdd [] a = [a] := rfl
    rw [this]
    simp [supersetIn]
  have hdup : handle_multi (pySetAdd [] a) a true = [] := by
    simp [handle_multi, hsup]
  have hempty : supersetIn [] a = false := rfl
  refine ⟨fun h => ⟨by simp [handle_multi, h], ?_⟩,
    fun h => by simp [handle_multi, h], hdup, ?_⟩
  · simp [handle_multi, h, runEvents]
  · rw [hdup, List.append_nil]
    simp only [handle_multi, hempty, Bool.false_eq_true, if_false, if_true]
    rfl

/-- C5 witness: feeding Multi North East twice from an empty set gives one
immediate callback and a suppressed duplicate. -/
theorem C5_witness :
    handle_multi [] action_multi_north_east true
      = [Event.setAdd action_multi_north_east,
         Event.callback action_multi_north_east, Event.sleep MAX_DELAY,
         Event.setRemove action_multi_north_east] ∧
    handle_multi (pySetAdd [] action_multi_north_east)
      action_multi_north_east true = [] :=
  ⟨(C5_multi_branch [] action_multi_north_east (by decide)
      (by decide)).2.1 (by decide),
   (C5_multi_branch [] action_multi_north_east (by decide)
      (by decide)).2.2.1⟩

/-- C6: for the Off action: when it is already a member of the set it is
dropped with no callback and no set mutation; otherwise it is added, the
handler sleeps MAX_DELAY, then invokes the callback exactly once, then
removes it, leaving the set as at entry. -/
theorem C6_off_branch (s : List Action) (a : Action) (_h : a.is_off = true) :
    (memIn s a = true →
        handle_off s a true = [] ∧
        runEvents s (handle_off s a true) = s) ∧
    (memIn s a = false →
        handle_off s a true
          = [Event.setAdd a, Event.sleep MAX_DELAY, Event.callback a,
             Event.setRemove a] ∧
        countCallbacks (handle_off s a true) = 1 ∧
        runEvents s (handle_off s a true) = s) := by
  constructor
  · intro hm
    refine ⟨by simp [handle_off, hm], ?_⟩
    simp [handle_off, hm, runEvents]
  · intro hm
    have htr : handle_off s a true
        = [Event.setAdd a, Event.sleep MAX_DELAY, Event.callback a,
           Event.setRemove a] := by
      simp only [handle_off, hm, Bool.false_eq_true, if_false, if_true]
    refine ⟨htr, by rw [htr]; rfl, ?_⟩
    rw [htr]
    show pySetRemove (pySetAdd s a) a = s
    exact pySetRemove_add_not_mem s a hm

/-- C6 witness: feeding Off with an empty active set gives add, wait,
one Off callback, remove; feeding it while already in the set drops it. -/
theorem C6_witness :
    handle_off [] action_off true
      = [Event.setAdd action_off, Event.sleep MAX_DELAY,
         Event.callback action_off, Event.setRemove action_off] ∧
    handle_off [action_off] action_off true = [] :=
  ⟨((C6_off_branch [] action_off (by decide)).2 (by decide)).1,
   ((C6_off_branch [action_off] action_off (by decide)).1 (by decide)).1⟩

/-- C7 counterexample: when the callback raises during the combo branch
run from an empty set, the branch terminates with the added action still
in the set — the set is not unchanged relative to entry. -/
theorem C7_counterexample :
    runEvents [] (handle_combo action_north_hold false)
      = [action_north_hold] ∧
    runEvents [] (handle_combo action_north_hold false) ≠ [] := by
  refine ⟨rfl, ?_⟩
  rw [show runEvents [] (handle_combo action_north_hold false)
      = [action_north_hold] from rfl]
  simp

/-- C7 (amended): in every debounce branch that adds the action to the set
(combo, multi when not suppressed, off when not a duplicate), an error
raised by the callback hook aborts the branch before the removal — there
is no try/finally — so the action added by the failing task remains in the
set and the set is not restored to its entry state. -/
theorem C7_failing_task_keeps_membership (s : List Action) (a : Action) :
    (runEvents s (handle_combo a false) = pySetAdd s a ∧
      Event.setRemove a ∉ handle_combo a false ∧
      memIn (runEvents s (handle_combo a false)) a = true) ∧
    (supersetIn s a = false →
        runEvents s (handle_multi s a false) = pySetAdd s a ∧
        Event.setRemove a ∉ handle_multi s a false) ∧
    (memIn s a = false →
        runEvents s (handle_off s a false) = pySetAdd s a ∧
        Event.setRemove a ∉ handle_off s a false) := by
  refine ⟨⟨rfl, by simp [handle_combo], ?_⟩, fun h => ⟨?_, ?_⟩,
    fun h => ⟨?_, ?_⟩⟩
  · rw [show runEvents s (handle_combo a false) = pySetAdd s a from rfl]
    exact memIn_pySetAdd_self s a
  · simp only [handle_multi, h, Bool.false_eq_true, if_false]
    rfl
  · simp [handle_multi, h]
  · simp only [handle_off, h, Bool.false_eq_true, if_false]
    rfl
  · simp [handle_off, h]

/-- C7 witness: the amended claim evaluated for the multi and off branches
at concrete actions with an empty entry set. -/
theorem C7_witness :
    runEvents [] (handle_multi [] action_multi_north_east false)
      = [action_multi_north_east] ∧
    runEvents [] (handle_off [] action_off false) = [action_off] :=
  ⟨(((C7_failing_task_keeps_membership [] action_multi_north_east).2.1
      (by decide)).1).trans (by decide),
   (((C7_failing_task_keeps_membership [] action_off).2.2
      (by decide)).1).trans (by decide)⟩

/-- C8: with no handler supplied, `TurnTouch.__init__` stores the class
`DefaultActionHandler` itself instead of an instance, so in
`handle_action` the call of the generic hook `action_any(action)` succeeds
(the action binds the `self` parameter), but the action-specific call
`getattr(handler, name)()` passes zero arguments to a plain function whose
only parameter is `self` and raises a TypeError for every action of the
table — the callbacks are not no-ops.  (The claim also counts 21
action-specific hooks; the handler defines 24.)  On a handler instance
every call succeeds. -/
theorem C8_default_handler_calls_fail :
    handlerOrDefaultIsInstance = false ∧
    hookCallOk handlerOrDefaultIsInstance "action_any" 1 = true ∧
    hookCallOk handlerOrDefaultIsInstance action_north.name 0 = false ∧
    handle_action_ok handlerOrDefaultIsInstance action_north = false ∧
    ACTIONS_table.all
      (fun p => !(handle_action_ok handlerOrDefaultIsInstance p.2))
      = true ∧
    ACTIONS_table.all (fun p => handle_action_ok true p.2) = true ∧
    defaultHandlerHooks.length = 24 := by
  decide

/-- C9 counterexample: seventeen euro signs form a name of 17 characters
(within the 32-character limit the setter checks) whose UTF-8 encoding is
51 bytes, so the setter does not raise and the value written is 51 bytes —
not exactly DEVICE_NAME_LENGTH = 32 as the claim states under either
reading (character count or byte count) of the length check. -/
theorem C9_counterexample :
    euroName.length = 17 ∧
    name_setter euroName = Except.ok (utf8Encode euroName) ∧
    (utf8Encode euroName).length = 51 ∧
    (utf8Encode euroName).length ≠ DEVICE_NAME_LENGTH := by
  refine ⟨rfl, ?_, rfl, by decide⟩
  rw [name_setter, if_neg (by decide)]
  rfl

/-- C9 (amended): the name setter raises TurnTouchException iff the name
has more than DEVICE_NAME_LENGTH = 32 characters (code points), and
otherwise writes the UTF-8 encoding left-padded with trailing NULs to
DEVICE_NAME_LENGTH — which is exactly 32 bytes only when the encoding
itself is at most 32 bytes (a short name with a longer multibyte encoding
is written unpadded at its full encoded length); nothing is written in the
error case. -/
theorem C9_name_setter (nm : List Nat) :
    (name_setter nm = Except.error PyExc.turnTouchException ↔
      DEVICE_NAME_LENGTH < nm.length) ∧
    (nm.length ≤ DEVICE_NAME_LENGTH →
        name_setter nm
          = Except.ok (ljust (utf8Encode nm) DEVICE_NAME_LENGTH 0)) ∧
    ((utf8Encode nm).length ≤ DEVICE_NAME_LENGTH →
        (ljust (utf8Encode nm) DEVICE_NAME_LENGTH 0).length
          = DEVICE_NAME_LENGTH) := by
  refine ⟨?_, fun h => by rw [name_setter, if_neg (by omega)], fun h => ?_⟩
  · constructor
    · intro h
      by_contra hc
      rw [name_setter, if_neg hc] at h
      exact Except.noConfusion h
    · intro h
      rw [name_setter, if_pos h]
  · simp only [ljust, List.length_append, List.length_replicate]
    omega

/-- C9 witness: the amended claim evaluated at the one-character ASCII
name A. -/
theorem C9_witness :
    name_setter [65]
      = Except.ok (ljust (utf8Encode [65]) DEVICE_NAME_LENGTH 0) ∧
    (ljust (utf8Encode [65]) DEVICE_NAME_LENGTH 0).length
      = DEVICE_NAME_LENGTH :=
  ⟨(C9_name_setter [65]).2.1 (by decide),
   (C9_name_setter [65]).2.2 (by decide)⟩

/-- C10: for every NUL-free string (of code points below 0x110000) whose
UTF-8 encoding fits in DEVICE_NAME_LENGTH = 32 bytes, the setter succeeds
and writes the encoding padded with trailing NULs to 32 bytes, and the
getter — UTF-8 decode followed by stripping trailing NULs — returns the
original string. -/
theorem C10_name_roundtrip (s : List Nat) (hv : ∀ c ∈ s, c < 0x110000)
    (h0 : (0 : Nat) ∉ s) (hl : (utf8Encode s).length ≤ DEVICE_NAME_LENGTH) :
    name_setter s = Except.ok (ljust (utf8Encode s) DEVICE_NAME_LENGTH 0) ∧
    name_getter (ljust (utf8Encode s) DEVICE_NAME_LENGTH 0) = s := by
  have hchars : s.length ≤ DEVICE_NAME_LENGTH :=
    le_trans (length_le_utf8Encode_length s) hl
  refine ⟨by rw [name_setter, if_neg (by omega)], ?_⟩
  rw [name_getter, ljust,
    utf8Decode_encode_append s hv (List.replicate _ 0),
    utf8Decode_replicate_zero, rstripNul_append_replicate s h0]

/-- C10 witness: the round trip evaluated at the one-character name A. -/
theorem C10_witness :
    name_setter [65]
      = Except.ok (ljust (utf8Encode [65]) DEVICE_NAME_LENGTH 0) ∧
    name_getter (ljust (utf8Encode [65]) DEVICE_NAME_LENGTH 0) = [65] :=
  C10_name_roundtrip [65] (by decide) (by decide) (by decide)

end TT
